import Mathlib

/-!
# Exam scoring engine: a shallow embedding of `main.py`

This file embeds the grading and persistence logic of the Flask exam
backend (`main.py`) into Lean and proves the frozen specification claims
about it.

Modelling conventions:
* Python strings are `String`; a Python dict access `d["k"]` on an
  optional field is a `match` on an `Option`, raising `KeyError` when
  absent, while `d.get("k", default)` is `Option.getD`.
* Numeric scores are `Rat` (Python floats are used only on values where
  exact rational arithmetic coincides with the source's intent; no
  floating-point rounding artefacts are relied on by any theorem).
* The Azure-OpenAI calls inside `evaluate_essay` / `evaluate_code` are
  external collaborators; they are parameters of type `Oracle`, returning
  either a parsed JSON dict or an exception.
* Database effects on the `results` table of `exam_results.db` are
  modelled as explicit state passing of a `List ResultRow`; the tables of
  `exam_questions.db` (question/answer log rows) are only committed at the
  very end of the grading loop and no claim mentions them, so they are not
  part of the state.
-/

deriving instance DecidableEq for Except

namespace ExamApp

/-- Python exceptions that the embedded code can raise. -/
inductive PyErr where
  | keyError (key : String)
  | typeError (msg : String)
deriving Repr, DecidableEq

/-- A question dict as consumed by the grading code.  Fields accessed with
`question["..."]` in Python (raising `KeyError` when absent) are `Option`;
fields accessed with `question.get(...)` carry their defaults at use sites.
`question` (the text) is named `question_text` here. -/
structure Question where
  id : Option String
  question_text : Option String
  qtype : Option String
  options : List String
  correct_answer : Option String
  subject : Option String
deriving Repr, DecidableEq

/-- The submitted answers: a Python dict from question id to raw answer,
modelled as a lookup function (`dict.get`). -/
def AnsMap : Type := String → Option String

/-- The JSON dict an LLM evaluation returns after `json.loads`; the code
reads it only through `.get("overall_score", 0)` and `.get("feedback")`. -/
structure EvalDict where
  overall_score : Option Rat
  feedback : Option String
  error : Option String
deriving Repr, DecidableEq

/-- An external LLM call `(question, model answer, student answer) ↦
parsed JSON or exception`. -/
def Oracle : Type := String → String → String → Except String EvalDict

/-- Python `str.isspace` on one character: the whitespace characters
`str.strip()` removes. -/
def pyIsSpace (c : Char) : Bool :=
  c = ' ' ∨ c = '\t' ∨ c = '\n' ∨ c = '\r' ∨ c = '\x0b' ∨ c = '\x0c'

/-- Python `str.lower()` on one character (the ASCII range; all strings the
source compares are ASCII). -/
def pyLowerChar (c : Char) : Char :=
  if 'A' ≤ c ∧ c ≤ 'Z' then Char.ofNat (c.toNat + 32) else c

/-- Python `str.lower()`. -/
def pyLower (s : String) : String := ⟨s.data.map pyLowerChar⟩

/-- Python `str.strip()`: drop leading and trailing whitespace. -/
def pyStrip (s : String) : String :=
  ⟨((s.data.dropWhile pyIsSpace).reverse.dropWhile pyIsSpace).reverse⟩

/-- The normalization applied before comparing answers:
`str(x).strip().lower()`. -/
def pyNormalize (s : String) : String := pyLower (pyStrip s)

/-- `calculate_grade` (main.py lines 245-256). -/
def calculate_grade (score : Rat) : String :=
  if score ≥ 90 then "A"
  else if score ≥ 80 then "B"
  else if score ≥ 70 then "C"
  else if score ≥ 60 then "D"
  else "F"

/-- The status computed in `save_exam_result` (main.py line 165):
`"Passed" if score >= 60 else "Failed"`. -/
def save_exam_status (score : Rat) : String :=
  if score ≥ 60 then "Passed" else "Failed"

/-- The feedback string `evaluate_essay` / `evaluate_code` attach when the
LLM call raises (main.py lines 856-861 and 897-902). -/
def failFeedback : String := "Automatic evaluation failed. Please review manually."

/-- `evaluate_essay` (main.py lines 822-861): forwards the parsed LLM JSON,
and on any exception returns the fallback dict with `overall_score = 0`
and an explanatory feedback string. -/
def evaluate_essay (llm : Oracle) (question correct_answer user_answer : String) :
    EvalDict :=
  match llm question correct_answer user_answer with
  | .ok evaluation => evaluation
  | .error e =>
      { error := some ("Evaluation failed: " ++ e),
        overall_score := some 0,
        feedback := some failFeedback }

/-- `evaluate_code` (main.py lines 863-902): same shape as `evaluate_essay`
with its own LLM prompt; the failure fallback is identical. -/
def evaluate_code (llm : Oracle) (question correct_answer user_answer : String) :
    EvalDict :=
  match llm question correct_answer user_answer with
  | .ok evaluation => evaluation
  | .error e =>
      { error := some ("Evaluation failed: " ++ e),
        overall_score := some 0,
        feedback := some failFeedback }

/-- One entry of the `detailed_results` list built by the grading loop
(main.py lines 1013-1018); the DB row id and the raw evaluation JSON are
not tracked, entries correspond to questions by position. -/
structure Detail where
  score : Rat
  feedback : Option String
deriving Repr, DecidableEq

/-- The effect of grading one question in the `validate_answers` loop:
how much `correct_count` and `total_gradeable_questions` grow, and the
detailed-results entry appended. -/
structure Outcome where
  dc : Nat
  dg : Nat
  detail : Detail
deriving Repr, DecidableEq

/-- Loop body of `validate_answers` (main.py lines 963-1018) for one
question, once `question["id"]` and `question["question"]` have been read:
`user_answer = answers.get(str(q_id), "")`,
`question_type = question.get("type", "").lower()`, then the four-way
branch on the question type. -/
def gradeOutcome (eLLM cLLM : Oracle) (question_text user_answer : String)
    (q : Question) : Outcome :=
  let question_type := pyLower (q.qtype.getD "")
  if question_type = "mcq" ∨ question_type = "true_false" then
    let is_correct := pyNormalize user_answer = pyNormalize (q.correct_answer.getD "")
    { dc := if is_correct then 1 else 0,
      dg := 1,
      detail := { score := if is_correct then 100 else 0, feedback := none } }
  else if question_type = "essay" then
    let evaluation := evaluate_essay eLLM question_text (q.correct_answer.getD "") user_answer
    { dc := 0, dg := 1,
      detail := { score := evaluation.overall_score.getD 0,
                  feedback := evaluation.feedback } }
  else if question_type = "coding" then
    let evaluation := evaluate_code cLLM question_text (q.correct_answer.getD "") user_answer
    { dc := 0, dg := 1,
      detail := { score := evaluation.overall_score.getD 0,
                  feedback := evaluation.feedback } }
  else
    -- no branch matches: question_score stays 0, neither counter moves
    { dc := 0, dg := 0, detail := { score := 0, feedback := none } }

/-- Grading one question including the `KeyError`s the loop can raise:
`question["id"]` (line 944) and `question["question"]` (line 954). -/
def gradeQuestion (eLLM cLLM : Oracle) (answers : AnsMap) (q : Question) :
    Except PyErr Outcome :=
  match q.id with
  | none => .error (.keyError "id")
  | some q_id =>
    match q.question_text with
    | none => .error (.keyError "question")
    | some question_text =>
      .ok (gradeOutcome eLLM cLLM question_text ((answers q_id).getD "") q)

/-- Accumulator of the grading loop: `correct_count`,
`total_gradeable_questions` and `detailed_results`. -/
structure GradeAcc where
  correct : Nat
  gradeable : Nat
  details : List Detail
deriving Repr, DecidableEq

/-- Folding one question outcome into the loop accumulator. -/
def applyOutcome (acc : GradeAcc) (o : Outcome) : GradeAcc :=
  { correct := acc.correct + o.dc,
    gradeable := acc.gradeable + o.dg,
    details := acc.details ++ [o.detail] }

/-- The grading loop `for question in questions:` of `validate_answers`
(main.py lines 943-1018); the first exception aborts the loop. -/
def runGrading (eLLM cLLM : Oracle) (answers : AnsMap) :
    List Question → GradeAcc → Except PyErr GradeAcc
  | [], acc => .ok acc
  | q :: qs, acc =>
    match gradeQuestion eLLM cLLM answers q with
    | .error e => .error e
    | .ok o => runGrading eLLM cLLM answers qs (applyOutcome acc o)

/-- A row of the `results` table of `exam_results.db`. -/
structure ResultRow where
  user_id : String
  score : Rat
  grade : String
  status : String
  subject : String
  total_questions : Nat
  correct_answers : Int
deriving Repr, DecidableEq

/-- The placeholder row `validate_answers` inserts before grading
(main.py lines 928-933): `(user_id, 0, 'P', 'In Progress', subject,
len(questions), 0)`. -/
def inProgressRow (user_id subject : String) (n : Nat) : ResultRow :=
  { user_id := user_id, score := 0, grade := "P", status := "In Progress",
    subject := subject, total_questions := n, correct_answers := 0 }

/-- The JSON payload `validate_answers` returns on success
(main.py lines 1035-1042).  Note that the `total_questions` field of the
response carries `total_gradeable_questions`, not `len(questions)`. -/
structure VAResponse where
  exam_id : Nat
  score : Rat
  grade : String
  correct_answers : Nat
  total_questions : Nat
  detailed_results : List Detail
deriving Repr, DecidableEq

/-- `validate_answers` (main.py lines 904-1049), after the request has been
parsed into `questions`, `answers` and `subject`.  `db` is the prior
content of the `results` table; the returned list is its content after the
call.  The placeholder row is inserted and committed first (its rowid is
`db.length + 1`); on success it is updated in place to the final result
(status `Completed`), and on an exception inside the grading loop the
handler returns an error response while the committed placeholder row
stays. -/
def validate_answers (eLLM cLLM : Oracle) (user_id subject : String)
    (questions : List Question) (answers : AnsMap) (db : List ResultRow) :
    Except PyErr VAResponse × List ResultRow :=
  let exam_id := db.length + 1
  let db1 := db ++ [inProgressRow user_id subject questions.length]
  match runGrading eLLM cLLM answers questions ⟨0, 0, []⟩ with
  | .error e => (.error e, db1)
  | .ok acc =>
    let final_score : Rat :=
      if acc.gradeable > 0 then (acc.correct : Rat) / (acc.gradeable : Rat) * 100 else 0
    (.ok { exam_id := exam_id,
           score := final_score,
           grade := calculate_grade final_score,
           correct_answers := acc.correct,
           total_questions := acc.gradeable,
           detailed_results := acc.details },
     db ++ [{ user_id := user_id, score := final_score,
              grade := calculate_grade final_score, status := "Completed",
              subject := subject, total_questions := questions.length,
              correct_answers := (acc.correct : Int) }])

/-- Python `round(x, 2)`: round to the nearest multiple of 1/100, ties to
the even multiple (banker's rounding). -/
def roundHalfEven (x : Rat) : Int :=
  let f := x.floor
  if x - f < 1 / 2 then f
  else if x - f > 1 / 2 then f + 1
  else if f % 2 = 0 then f else f + 1

/-- `round(value, 2)` as used at main.py line 1179. -/
def pyRound2 (x : Rat) : Rat := (roundHalfEven (x * 100) : Rat) / 100

/-- The correct-answer count of `submit_exam` (main.py lines 1175-1178):
`sum(1 for q in questions if answers.get(str(q['id'])) == q['correct_answer'])`.
Raw equality on the un-normalized strings; a missing answer gives `None`,
which never equals a string; `q['id']` / `q['correct_answer']` raise
`KeyError` when absent. -/
def rawCorrectCount (answers : AnsMap) : List Question → Except PyErr Nat
  | [] => .ok 0
  | q :: qs =>
    match q.id with
    | none => .error (.keyError "id")
    | some q_id =>
      match q.correct_answer with
      | none => .error (.keyError "correct_answer")
      | some ca =>
        match rawCorrectCount answers qs with
        | .error e => .error e
        | .ok n => .ok ((if answers q_id = some ca then 1 else 0) + n)

/-- Count of parameters of `save_exam_result` that have no default value:
`user_id, questions, answers, score, subject` (main.py line 161). -/
def save_exam_result_required_params : Nat := 5

/-- Count of positional arguments `submit_exam` passes in the call
`save_exam_result(user_id, questions, answers, score)` (main.py line 1182). -/
def submit_exam_save_call_args : Nat := 4

/-- The call `save_exam_result(user_id, questions, answers, score)` at
main.py line 1182.  Python checks the arity at the call: the call site
provides fewer positional arguments than `save_exam_result` has parameters
without defaults, so `TypeError` is raised before the function body runs.
(The `.ok` branch is the arity-correct case, which these constants rule
out.) -/
def call_save_exam_result (exam_id : Nat) : Except PyErr Nat :=
  if save_exam_result_required_params ≤ submit_exam_save_call_args then
    .ok exam_id
  else
    .error (.typeError
      "save_exam_result() missing 1 required positional argument: subject")

/-- The JSON payload `submit_exam` would return on success
(main.py lines 1184-1189). -/
structure SubmitResponse where
  exam_id : Nat
  score : Rat
  grade : String
deriving Repr, DecidableEq

/-- The `try` block of `submit_exam` (main.py lines 1163-1189), after the
request has been parsed: compute the raw-equality score, then call
`save_exam_result` with four arguments. -/
def submit_exam_try (questions : List Question) (answers : AnsMap) :
    Except PyErr SubmitResponse :=
  let total_questions := questions.length
  match rawCorrectCount answers questions with
  | .error e => .error e
  | .ok correct_answers =>
    let score : Rat :=
      if total_questions > 0 then
        pyRound2 ((correct_answers : Rat) / (total_questions : Rat) * 100)
      else 0
    match call_save_exam_result 1 with
    | .error e => .error e
    | .ok exam_id =>
      .ok { exam_id := exam_id, score := score, grade := calculate_grade score }

/-- `submit_exam` (main.py lines 1159-1193): any exception in the `try`
block is caught and turned into the generic error response
`{"error": "Failed to submit exam"}` with HTTP 500. -/
def submit_exam (questions : List Question) (answers : AnsMap) :
    Except String SubmitResponse :=
  match submit_exam_try questions answers with
  | .ok r => .ok r
  | .error _ => .error "Failed to submit exam"

/-! ## Auxiliary notions used in the claim statements -/

/-- An essay oracle that is down for exactly one input triple and behaves
like `E` everywhere else; used to compare a run in which the delegated
evaluator fails on one question with the run where it succeeds. -/
def failAt (E : Oracle) (t1 t2 t3 : String) : Oracle :=
  fun a b c => if a = t1 ∧ b = t2 ∧ c = t3 then .error "service unavailable" else E a b c

/-- The detailed-results entry produced for an open-ended question whose
evaluator call failed: score 0 plus the explanatory feedback string. -/
def failDetail : Detail := { score := 0, feedback := some failFeedback }

/-- The question `q` is an open-ended (essay or coding) question whose
evaluation inputs under the submission `ans` are exactly the triple
`(t1, t2, t3)`. -/
def triggeredOpenEnded (ans : AnsMap) (t1 t2 t3 : String) (q : Question) : Prop :=
  (pyLower (q.qtype.getD "") = "essay" ∨ pyLower (q.qtype.getD "") = "coding") ∧
  q.question_text = some t1 ∧
  q.correct_answer.getD "" = t2 ∧ ∃ q_id, q.id = some q_id ∧ (ans q_id).getD "" = t3

/-- Adding one entry to a submitted-answers dict. -/
def insertAns (a : AnsMap) (k v : String) : AnsMap :=
  fun x => if x = k then some v else a x

/-! ## Concrete fixtures for counterexamples and witnesses -/

/-- An evaluator collaborator that always raises. -/
def oracleDown : Oracle := fun _ _ _ => .error "unavailable"

/-- An evaluator collaborator that always returns score 90. -/
def oracle90 : Oracle := fun _ _ _ => .ok { overall_score := some 90, feedback := some "good", error := none }

/-- An evaluator collaborator that always returns score 100. -/
def oracle100 : Oracle := fun _ _ _ => .ok { overall_score := some 100, feedback := some "excellent", error := none }

/-- An mcq question with reference answer `"Paris"`. -/
def qParis : Question :=
  { id := some "1", question_text := some "What is the capital of France?",
    qtype := some "mcq", options := ["Paris", "London", "Rome", "Berlin"],
    correct_answer := some "Paris", subject := none }

/-- A submission answering question 1 with `" paris "`. -/
def ansParis : AnsMap := fun k => if k = "1" then some " paris " else none

/-- A short-answer question with reference answer `"final"`. -/
def qShort : Question :=
  { id := some "1", question_text := some "Which Java keyword declares a constant?",
    qtype := some "short_answer", options := [],
    correct_answer := some "final", subject := none }

/-- A submission answering question 1 with exactly `"final"`. -/
def ansFinal : AnsMap := fun k => if k = "1" then some "final" else none

/-- An essay question. -/
def qEssay : Question :=
  { id := some "1", question_text := some "Discuss the impact of AI.",
    qtype := some "essay", options := [],
    correct_answer := some "Key points to cover", subject := none }

/-- A submission answering question 1 with an essay text. -/
def ansEssay : AnsMap := fun k => if k = "1" then some "AI changes everything." else none

/-- A malformed question dict without an `id` key. -/
def qNoId : Question :=
  { id := none, question_text := some "Broken question",
    qtype := some "mcq", options := [], correct_answer := some "A", subject := none }

/-- The empty submission. -/
def ansEmpty : AnsMap := fun _ => none

/-- Three mcq questions with reference answers `A`, `B`, `C`. -/
def qsMCQ3 : List Question :=
  [ { id := some "1", question_text := some "Q1", qtype := some "mcq",
      options := [], correct_answer := some "A", subject := none },
    { id := some "2", question_text := some "Q2", qtype := some "mcq",
      options := [], correct_answer := some "B", subject := none },
    { id := some "3", question_text := some "Q3", qtype := some "mcq",
      options := [], correct_answer := some "C", subject := none } ]

/-- A submission getting exactly the first of the three mcq questions right. -/
def ansOneOfThree : AnsMap := fun k => if k = "1" then some "A" else none

/-- The response `validate_answers` produces for the single essay question
`qEssay` under `ansEssay` when the evaluator returns a score of 100. -/
def respEssay100 : VAResponse :=
  { exam_id := 1, score := 0, grade := "F", correct_answers := 0,
    total_questions := 1,
    detailed_results := [{ score := 100, feedback := some "excellent" }] }

/-- The result row stored for that same essay submission. -/
def rowEssay100 : ResultRow :=
  { user_id := "u", score := 0, grade := "F", status := "Completed",
    subject := "General", total_questions := 1, correct_answers := 0 }

/-- The response `validate_answers` produces for `qsMCQ3` under
`ansOneOfThree`: one of three mcq questions correct. -/
def respOneOfThree : VAResponse :=
  { exam_id := 1, score := 100 / 3, grade := "F", correct_answers := 1,
    total_questions := 3,
    detailed_results := [{ score := 100, feedback := none },
                         { score := 0, feedback := none },
                         { score := 0, feedback := none }] }

/-- The result row stored for that same three-mcq submission. -/
def rowOneOfThree : ResultRow :=
  { user_id := "u", score := 100 / 3, grade := "F", status := "Completed",
    subject := "General", total_questions := 3, correct_answers := 1 }

/-- A coding question. -/
def qCoding : Question :=
  { id := some "2", question_text := some "Write a fibonacci function.",
    qtype := some "coding", options := [],
    correct_answer := some "def fibonacci(n): return n", subject := none }

/-- A submission answering the essay question 1 and the coding question 2. -/
def ansOpen : AnsMap := fun k =>
  if k = "1" then some "AI changes everything."
  else if k = "2" then some "my code" else none

/-- The response `validate_answers` produces for `[qEssay, qCoding]` under
`ansOpen` when both delegated evaluations return a score of 90. -/
def respOpen90 : VAResponse :=
  { exam_id := 1, score := 0, grade := "F", correct_answers := 0,
    total_questions := 2,
    detailed_results := [{ score := 90, feedback := some "good" },
                         { score := 90, feedback := some "good" }] }

/-- The result row stored for that essay-plus-coding submission. -/
def rowOpen90 : ResultRow :=
  { user_id := "u", score := 0, grade := "F", status := "Completed",
    subject := "General", total_questions := 2, correct_answers := 0 }

/-! ## Structural lemmas about the grading loop -/

/-- The grading loop succeeds exactly when every question grades without a
`KeyError`, and then the final accumulator is the fold of the per-question
outcomes. -/
theorem runGrading_ok_iff (eLLM cLLM : Oracle) (answers : AnsMap)
    (qs : List Question) :
    ∀ (acc A : GradeAcc),
      runGrading eLLM cLLM answers qs acc = .ok A ↔
      ∃ os : List Outcome,
        List.Forall₂ (fun q o => gradeQuestion eLLM cLLM answers q = .ok o) qs os ∧
        A = os.foldl applyOutcome acc := by
  induction qs with
  | nil =>
    intro acc A
    constructor
    · intro h
      refine ⟨[], List.Forall₂.nil, ?_⟩
      simpa [runGrading] using h.symm
    · rintro ⟨os, hos, rfl⟩
      rcases hos
      simp [runGrading]
  | cons q qs ih =>
    intro acc A
    cases hg : gradeQuestion eLLM cLLM answers q with
    | error e =>
      constructor
      · intro h
        simp [runGrading, hg] at h
      · rintro ⟨os, hos, rfl⟩
        rcases hos with _ | ⟨ho, hos'⟩
        simp_all
    | ok o =>
      constructor
      · intro h
        simp only [runGrading, hg] at h
        obtain ⟨os, hos, rfl⟩ := (ih (applyOutcome acc o) A).mp h
        exact ⟨o :: os, List.Forall₂.cons hg hos, rfl⟩
      · rintro ⟨os, hos, rfl⟩
        rcases hos with _ | ⟨ho, hos'⟩
        rename_i o' os'
        rw [hg] at ho
        obtain rfl : o = o' := by simpa using ho
        simp only [runGrading, hg]
        exact (ih (applyOutcome acc o) _).mpr ⟨os', hos', rfl⟩

/-- `correct_count` after the fold. -/
theorem foldl_applyOutcome_correct (os : List Outcome) :
    ∀ acc : GradeAcc,
      (os.foldl applyOutcome acc).correct = acc.correct + (os.map Outcome.dc).sum := by
  induction os with
  | nil => intro acc; simp
  | cons o os ih =>
    intro acc
    rw [List.foldl_cons, ih (applyOutcome acc o)]
    simp [applyOutcome, Nat.add_assoc]

/-- `total_gradeable_questions` after the fold. -/
theorem foldl_applyOutcome_gradeable (os : List Outcome) :
    ∀ acc : GradeAcc,
      (os.foldl applyOutcome acc).gradeable = acc.gradeable + (os.map Outcome.dg).sum := by
  induction os with
  | nil => intro acc; simp
  | cons o os ih =>
    intro acc
    rw [List.foldl_cons, ih (applyOutcome acc o)]
    simp [applyOutcome, Nat.add_assoc]

/-- `detailed_results` after the fold. -/
theorem foldl_applyOutcome_details (os : List Outcome) :
    ∀ acc : GradeAcc,
      (os.foldl applyOutcome acc).details = acc.details ++ os.map Outcome.detail := by
  induction os with
  | nil => intro acc; simp
  | cons o os ih =>
    intro acc
    rw [List.foldl_cons, ih (applyOutcome acc o)]
    simp [applyOutcome]

/-- Per question, the `correct_count` increment never exceeds the
`total_gradeable_questions` increment, which is at most one. -/
theorem gradeOutcome_dc_le_dg (eLLM cLLM : Oracle)
    (question_text user_answer : String) (q : Question) :
    (gradeOutcome eLLM cLLM question_text user_answer q).dc ≤
      (gradeOutcome eLLM cLLM question_text user_answer q).dg ∧
    (gradeOutcome eLLM cLLM question_text user_answer q).dg ≤ 1 := by
  simp only [gradeOutcome]
  split_ifs <;> simp

/-- `correct_count` grows exactly on a normalized-match mcq/true_false
question. -/
theorem gradeOutcome_dc_eq (eLLM cLLM : Oracle)
    (question_text user_answer : String) (q : Question) :
    (gradeOutcome eLLM cLLM question_text user_answer q).dc =
      if (pyLower (q.qtype.getD "") = "mcq" ∨ pyLower (q.qtype.getD "") = "true_false")
          ∧ pyNormalize user_answer = pyNormalize (q.correct_answer.getD "") then 1
      else 0 := by
  simp only [gradeOutcome]
  split_ifs <;> simp_all

/-- `total_gradeable_questions` grows exactly on the four recognized types. -/
theorem gradeOutcome_dg_eq (eLLM cLLM : Oracle)
    (question_text user_answer : String) (q : Question) :
    (gradeOutcome eLLM cLLM question_text user_answer q).dg =
      if pyLower (q.qtype.getD "") = "mcq" ∨ pyLower (q.qtype.getD "") = "true_false"
          ∨ pyLower (q.qtype.getD "") = "essay" ∨ pyLower (q.qtype.getD "") = "coding" then 1
      else 0 := by
  simp only [gradeOutcome]
  split_ifs <;> simp_all

/-- A successful `gradeQuestion` call decomposes into the presence of the
`id` and `question` keys plus the pure loop body. -/
theorem gradeQuestion_ok_elim (eLLM cLLM : Oracle) (ans : AnsMap)
    (q : Question) (o : Outcome)
    (h : gradeQuestion eLLM cLLM ans q = .ok o) :
    ∃ q_id question_text, q.id = some q_id ∧ q.question_text = some question_text ∧
      o = gradeOutcome eLLM cLLM question_text ((ans q_id).getD "") q := by
  unfold gradeQuestion at h
  rcases hid : q.id with _ | q_id <;> rw [hid] at h
  · exact absurd h (by simp)
  rcases hqt : q.question_text with _ | question_text <;> rw [hqt] at h
  · exact absurd h (by simp)
  exact ⟨q_id, question_text, rfl, rfl, by simpa using h.symm⟩

/-- Over a list of successfully graded questions, the `correct_count` total
is bounded by the `total_gradeable_questions` total, which is bounded by
the number of questions. -/
theorem outcomes_sum_bounds (eLLM cLLM : Oracle) (ans : AnsMap)
    (qs : List Question) (os : List Outcome)
    (h : List.Forall₂ (fun q o => gradeQuestion eLLM cLLM ans q = .ok o) qs os) :
    (os.map Outcome.dc).sum ≤ (os.map Outcome.dg).sum ∧
    (os.map Outcome.dg).sum ≤ qs.length := by
  induction h with
  | nil => simp
  | @cons q o qs os hqo hqs ih =>
    obtain ⟨q_id, question_text, _, _, rfl⟩ :=
      gradeQuestion_ok_elim eLLM cLLM ans q o hqo
    obtain ⟨h1, h2⟩ := gradeOutcome_dc_le_dg eLLM cLLM question_text ((ans q_id).getD "") q
    constructor
    · simpa using Nat.add_le_add h1 ih.1
    · simpa [Nat.add_comm, Nat.add_le_add_iff_left] using Nat.add_le_add h2 ih.2

/-- Anatomy of a successful `validate_answers` call: every question graded
without an exception, and the response and the final state of the
`results` table are determined by the per-question outcomes. -/
theorem validate_answers_ok_elim
    (eLLM cLLM : Oracle) (u subj : String) (qs : List Question) (ans : AnsMap)
    (db : List ResultRow) (resp : VAResponse) (rows : List ResultRow)
    (h : validate_answers eLLM cLLM u subj qs ans db = (.ok resp, rows)) :
    ∃ os : List Outcome,
      List.Forall₂ (fun q o => gradeQuestion eLLM cLLM ans q = .ok o) qs os ∧
      resp.correct_answers = (os.map Outcome.dc).sum ∧
      resp.total_questions = (os.map Outcome.dg).sum ∧
      resp.detailed_results = os.map Outcome.detail ∧
      resp.score = (if 0 < resp.total_questions then
        (resp.correct_answers : Rat) / (resp.total_questions : Rat) * 100 else 0) ∧
      resp.grade = calculate_grade resp.score ∧
      resp.exam_id = db.length + 1 ∧
      rows = db ++ [{ user_id := u, score := resp.score, grade := resp.grade,
                      status := "Completed", subject := subj,
                      total_questions := qs.length,
                      correct_answers := (resp.correct_answers : Int) }] := by
  unfold validate_answers at h
  rcases hr : runGrading eLLM cLLM ans qs ⟨0, 0, []⟩ with e | acc <;> rw [hr] at h
  · exact absurd h (by simp)
  obtain ⟨os, hos, rfl⟩ := (runGrading_ok_iff eLLM cLLM ans qs ⟨0, 0, []⟩ acc).mp hr
  obtain ⟨hresp, hrows⟩ := Prod.mk.injEq .. |>.mp h
  replace hresp := Except.ok.inj hresp
  refine ⟨os, hos, ?_⟩
  subst hrows
  rw [← hresp]
  simp [foldl_applyOutcome_correct, foldl_applyOutcome_gradeable,
    foldl_applyOutcome_details, Nat.pos_iff_ne_zero]

/-- Anatomy of a failing `validate_answers` call: the grading loop raised,
and the committed placeholder row is the only change to the `results`
table. -/
theorem validate_answers_error_elim
    (eLLM cLLM : Oracle) (u subj : String) (qs : List Question) (ans : AnsMap)
    (db : List ResultRow) (pe : PyErr) (rows : List ResultRow)
    (h : validate_answers eLLM cLLM u subj qs ans db = (.error pe, rows)) :
    runGrading eLLM cLLM ans qs ⟨0, 0, []⟩ = .error pe ∧
    rows = db ++ [inProgressRow u subj qs.length] := by
  unfold validate_answers at h
  rcases hr : runGrading eLLM cLLM ans qs ⟨0, 0, []⟩ with e | acc <;> rw [hr] at h
  · obtain ⟨h1, h2⟩ := Prod.mk.injEq .. |>.mp h
    exact ⟨by rw [Except.error.inj h1], h2.symm⟩
  · exact absurd h (by simp)

/-! ## Claim C1 -/

/-- C1: the claim asserts that for every well-formed submission
`submit_exam` completes successfully and persists a result.  It is false
for every input: the call `save_exam_result(user_id, questions, answers,
score)` supplies four positional arguments while `save_exam_result`
requires five (`subject` has no default), so Python raises `TypeError`
inside the `try` block and `submit_exam` answers with the generic
`"Failed to submit exam"` error for every submission (and if the score
computation raises first, the same handler fires).  Nothing is ever
persisted by this route. -/
theorem submit_exam_always_fails (questions : List Question) (answers : AnsMap) :
    submit_exam questions answers = .error "Failed to submit exam" := by
  have hc : call_save_exam_result 1 =
      .error (.typeError
        "save_exam_result() missing 1 required positional argument: subject") := by
    decide
  unfold submit_exam submit_exam_try
  rcases h : rawCorrectCount answers questions with e | n <;> simp [h, hc]

/-! ## Claim C3 -/

/-- C3 counterexample: a `short_answer` question whose submitted answer
exactly equals the reference answer.  The claim predicts that the question
is gradeable and scores 100; in `validate_answers` no branch of the type
dispatch matches `short_answer`, so the question is not counted gradeable
(`total_questions = 0` in the response), its detailed score is 0, and the
overall score is 0. -/
theorem short_answer_match_scores_zero :
    pyNormalize ((ansFinal "1").getD "") = pyNormalize (qShort.correct_answer.getD "") ∧
    validate_answers oracleDown oracleDown "u" "General" [qShort] ansFinal [] =
      (.ok { exam_id := 1, score := 0, grade := "F", correct_answers := 0,
             total_questions := 0,
             detailed_results := [{ score := 0, feedback := none }] },
       [{ user_id := "u", score := 0, grade := "F", status := "Completed",
          subject := "General", total_questions := 1, correct_answers := 0 }]) := by
  constructor
  · decide
  · have h : runGrading oracleDown oracleDown ansFinal [qShort] ⟨0, 0, []⟩ =
        .ok ⟨0, 0, [{ score := 0, feedback := none }]⟩ := by decide
    unfold validate_answers
    rw [h]
    norm_num [calculate_grade, qShort]

/-- C3 amended: in `validate_answers`, a question whose lower-cased type is
none of `mcq`, `true_false`, `essay`, `coding` — in particular
`short_answer`, and any unknown or missing type — is not graded at all: it
does not enter the gradeable denominator, never counts as correct, and its
detailed score is 0 regardless of the submitted answer.  (Only the
separate per-answer log written by `save_exam_result` applies the binary
normalized match to such types.) -/
theorem unrecognized_type_not_gradeable
    (eLLM cLLM : Oracle) (ans : AnsMap) (q : Question)
    (q_id question_text : String)
    (hid : q.id = some q_id) (hqt : q.question_text = some question_text)
    (hty : pyLower (q.qtype.getD "") ≠ "mcq" ∧ pyLower (q.qtype.getD "") ≠ "true_false" ∧
           pyLower (q.qtype.getD "") ≠ "essay" ∧ pyLower (q.qtype.getD "") ≠ "coding") :
    gradeQuestion eLLM cLLM ans q =
      .ok { dc := 0, dg := 0, detail := { score := 0, feedback := none } } := by
  simp only [gradeQuestion, hid, hqt, gradeOutcome]
  rw [if_neg (by rintro (h | h) <;> simp_all), if_neg hty.2.2.1, if_neg hty.2.2.2]

/-- Witness for C3 amended, at the `short_answer` fixture. -/
theorem unrecognized_type_not_gradeable_witness :
    gradeQuestion oracleDown oracleDown ansFinal qShort =
      .ok { dc := 0, dg := 0, detail := { score := 0, feedback := none } } :=
  unrecognized_type_not_gradeable oracleDown oracleDown ansFinal qShort
    "1" "Which Java keyword declares a constant?" rfl rfl
    ⟨by decide, by decide, by decide, by decide⟩

/-! ## Claim C5 -/

/-- C5 counterexample: a submission whose single question dict lacks the
`id` key.  Grading raises `KeyError`, `validate_answers` reports failure —
but the placeholder summary row committed before grading survives with
status `In Progress`, contradicting the claim that no placeholder row
remains durably stored when the submission does not complete. -/
theorem in_progress_row_survives_failure :
    validate_answers oracleDown oracleDown "u" "General" [qNoId] ansEmpty [] =
      (.error (.keyError "id"), [inProgressRow "u" "General" 1]) ∧
    (inProgressRow "u" "General" 1).status = "In Progress" := by
  have h : runGrading oracleDown oracleDown ansEmpty [qNoId] ⟨0, 0, []⟩ =
      .error (.keyError "id") := by decide
  constructor
  · unfold validate_answers
    rw [h]
    decide
  · decide

/-- C5 amended: when any exception occurs during grading,
`validate_answers` aborts and reports failure, but the commit is partial:
the placeholder summary row (status `In Progress`, score 0) inserted and
committed before grading remains durably stored in the `results` table. -/
theorem grading_failure_keeps_placeholder
    (eLLM cLLM : Oracle) (u subj : String) (qs : List Question) (ans : AnsMap)
    (db : List ResultRow) (pe : PyErr) (rows : List ResultRow)
    (h : validate_answers eLLM cLLM u subj qs ans db = (.error pe, rows)) :
    rows = db ++ [inProgressRow u subj qs.length] ∧
    (inProgressRow u subj qs.length).status = "In Progress" ∧
    (inProgressRow u subj qs.length).score = 0 := by
  obtain ⟨-, h2⟩ :=
    validate_answers_error_elim eLLM cLLM u subj qs ans db pe rows h
  exact ⟨h2, rfl, rfl⟩

/-- Witness for C5 amended, at the missing-`id` fixture. -/
theorem grading_failure_keeps_placeholder_witness :
    [inProgressRow "u" "General" 1] =
      [] ++ [inProgressRow "u" "General" ([qNoId].length)] ∧
    (inProgressRow "u" "General" ([qNoId].length)).status = "In Progress" ∧
    (inProgressRow "u" "General" ([qNoId].length)).score = 0 :=
  grading_failure_keeps_placeholder oracleDown oracleDown "u" "General"
    [qNoId] ansEmpty [] (.keyError "id") [inProgressRow "u" "General" 1]
    (by
      have h : runGrading oracleDown oracleDown ansEmpty [qNoId] ⟨0, 0, []⟩ =
          .error (.keyError "id") := by decide
      unfold validate_answers
      rw [h]
      decide)

/-! ## Claim C2 -/

/-- C2 counterexample: mcq question with reference answer `"Paris"`,
submitted answer `" paris "`.  In the `validate_answers` grading path the
normalized comparison awards score 100 and marks the question correct and
gradeable — but `submit_exam`'s correct count compares the raw strings
with `==` and counts the same submission as 0 correct, so the normalized
comparison does not apply identically in every grading path. -/
theorem normalization_missing_in_submit_path :
    gradeQuestion oracleDown oracleDown ansParis qParis =
      .ok { dc := 1, dg := 1, detail := { score := 100, feedback := none } } ∧
    rawCorrectCount ansParis [qParis] = .ok 0 := by decide

/-- C2 amended: for mcq and true_false questions, the `validate_answers`
grading path marks the question gradeable and awards 100 iff the submitted
and reference answers are equal after normalization (string conversion,
strip, lowercase), with a missing answer defaulting to the empty string
rather than an error — but the `submit_exam` path counts a question
correct iff the raw submitted answer equals the raw `correct_answer`
(missing answer gives `None`, never equal), with no normalization. -/
theorem mcq_true_false_normalized_grading
    (eLLM cLLM : Oracle) (ans : AnsMap) (q : Question)
    (q_id question_text ca : String)
    (hid : q.id = some q_id) (hqt : q.question_text = some question_text)
    (hca : q.correct_answer = some ca)
    (hty : pyLower (q.qtype.getD "") = "mcq" ∨ pyLower (q.qtype.getD "") = "true_false") :
    gradeQuestion eLLM cLLM ans q =
      .ok { dc := if pyNormalize ((ans q_id).getD "") = pyNormalize ca then 1 else 0,
            dg := 1,
            detail := { score := if pyNormalize ((ans q_id).getD "") = pyNormalize ca
                          then 100 else 0,
                        feedback := none } } ∧
    rawCorrectCount ans [q] = .ok (if ans q_id = some ca then 1 else 0) := by
  constructor
  · simp only [gradeQuestion, hid, hqt, gradeOutcome, hca, Option.getD_some]
    rw [if_pos hty]
  · simp [rawCorrectCount, hid, hca]

/-- Witness for C2 amended, at the `" paris "` versus `"Paris"` fixture. -/
theorem mcq_true_false_normalized_grading_witness :
    gradeQuestion oracleDown oracleDown ansParis qParis =
      .ok { dc := if pyNormalize ((ansParis "1").getD "") = pyNormalize "Paris" then 1 else 0,
            dg := 1,
            detail := { score := if pyNormalize ((ansParis "1").getD "") = pyNormalize "Paris"
                          then 100 else 0,
                        feedback := none } } ∧
    rawCorrectCount ansParis [qParis] = .ok (if ansParis "1" = some "Paris" then 1 else 0) :=
  mcq_true_false_normalized_grading oracleDown oracleDown ansParis qParis
    "1" "What is the capital of France?" "Paris" rfl rfl rfl (Or.inl (by decide))

/-! ## Claim C4 -/

/-- C4 counterexample: three mcq questions with one correct answer.
`validate_answers` returns the exact rational `100/3` as the overall
score; the claim predicts `round(100 * 1 / 3, 2) = 33.33`, and `100/3` is
not a number with two decimal places (rounding it changes it), so the
response score is neither rounded nor representable in exactly two
decimals. -/
theorem overall_score_not_rounded :
    validate_answers oracleDown oracleDown "u" "General" qsMCQ3 ansOneOfThree [] =
      (.ok respOneOfThree, [rowOneOfThree]) ∧
    respOneOfThree.score ≠
      pyRound2 (100 * (respOneOfThree.correct_answers : Rat) /
        (respOneOfThree.total_questions : Rat)) ∧
    pyRound2 respOneOfThree.score ≠ respOneOfThree.score := by
  have hf : ((10000 : Rat)/3).floor = 3333 := by
    have heq : ((10000 : Rat)/3).floor = ⌊(10000 : Rat)/3⌋ := rfl
    rw [heq, Int.floor_eq_iff] <;> norm_num
  have h1 : pyRound2 ((100 : Rat)/3) = 3333/100 := by
    simp only [pyRound2, roundHalfEven]
    rw [show (100 : Rat)/3 * 100 = 10000/3 by norm_num, hf]
    rw [if_pos (by norm_num)]
    norm_num
  refine ⟨?_, ?_, ?_⟩
  · have h : runGrading oracleDown oracleDown ansOneOfThree qsMCQ3 ⟨0, 0, []⟩ =
        .ok ⟨1, 3, [{ score := 100, feedback := none },
                    { score := 0, feedback := none },
                    { score := 0, feedback := none }]⟩ := by decide
    unfold validate_answers
    rw [h]
    norm_num [calculate_grade, qsMCQ3, respOneOfThree, rowOneOfThree]
  · simp only [respOneOfThree]
    rw [show (100 : Rat) * ((1 : Nat) : Rat) / ((3 : Nat) : Rat) = 100/3 by norm_num, h1]
    norm_num
  · simp only [respOneOfThree]
    rw [h1]
    norm_num

/-- C4 amended: the overall score `validate_answers` returns equals
`100 * correct_count / gradeable_count` exactly, with no rounding, when
`gradeable_count > 0`, and `0` when `gradeable_count = 0` (no exception on
an empty gradeable set); the score always lies in `[0, 100]`, but it is
not rounded to two decimal places.  (`submit_exam`, the only caller of
`round(..., 2)`, never reaches its response — see C1.) -/
theorem overall_score_formula_and_bounds
    (eLLM cLLM : Oracle) (u subj : String) (qs : List Question) (ans : AnsMap)
    (db : List ResultRow) (resp : VAResponse) (rows : List ResultRow)
    (h : validate_answers eLLM cLLM u subj qs ans db = (.ok resp, rows)) :
    resp.score = (if 0 < resp.total_questions then
      (resp.correct_answers : Rat) / (resp.total_questions : Rat) * 100 else 0) ∧
    0 ≤ resp.score ∧ resp.score ≤ 100 := by
  obtain ⟨os, hos, hc, hg, -, hscore, -, -, -⟩ :=
    validate_answers_ok_elim eLLM cLLM u subj qs ans db resp rows h
  obtain ⟨hb1, -⟩ := outcomes_sum_bounds eLLM cLLM ans qs os hos
  have hcg : resp.correct_answers ≤ resp.total_questions := by rw [hc, hg]; exact hb1
  refine ⟨hscore, ?_, ?_⟩
  · rw [hscore]
    split_ifs with hpos
    · positivity
    · exact le_refl 0
  · rw [hscore]
    split_ifs with hpos
    · have hq : (resp.correct_answers : Rat) / (resp.total_questions : Rat) ≤ 1 := by
        rw [div_le_one (by exact_mod_cast hpos)]
        exact_mod_cast hcg
      have := mul_le_mul_of_nonneg_right hq (by norm_num : (0 : Rat) ≤ 100)
      simpa using this
    · norm_num

/-- Witness for C4 amended, at the one-of-three-mcq fixture. -/
theorem overall_score_formula_and_bounds_witness :
    respOneOfThree.score = (if 0 < respOneOfThree.total_questions then
      (respOneOfThree.correct_answers : Rat) / (respOneOfThree.total_questions : Rat) * 100
      else 0) ∧
    0 ≤ respOneOfThree.score ∧ respOneOfThree.score ≤ 100 :=
  overall_score_formula_and_bounds oracleDown oracleDown "u" "General"
    qsMCQ3 ansOneOfThree [] respOneOfThree [rowOneOfThree]
    (by
      have h : runGrading oracleDown oracleDown ansOneOfThree qsMCQ3 ⟨0, 0, []⟩ =
          .ok ⟨1, 3, [{ score := 100, feedback := none },
                      { score := 0, feedback := none },
                      { score := 0, feedback := none }]⟩ := by decide
      unfold validate_answers
      rw [h]
      norm_num [calculate_grade, qsMCQ3, respOneOfThree, rowOneOfThree])

/-! ## Claim C6 -/

/-- C6 counterexample: a single essay question whose delegated evaluator
returns exactly 100.  The claim predicts `correct_answers = 1` (the count
of gradeable questions scored exactly 100); the code counts the question
gradeable and records its detailed score 100, yet reports
`correct_answers = 0`, because `correct_count` is incremented only in the
mcq/true_false branch. -/
theorem essay_full_score_not_counted_correct :
    validate_answers oracle100 oracleDown "u" "General" [qEssay] ansEssay [] =
      (.ok respEssay100, [rowEssay100]) ∧
    (respEssay100.detailed_results.filter (fun d => d.score == 100)).length = 1 ∧
    respEssay100.correct_answers = 0 := by
  refine ⟨?_, by decide, by decide⟩
  have h : runGrading oracle100 oracleDown ansEssay [qEssay] ⟨0, 0, []⟩ =
      .ok ⟨0, 1, [{ score := 100, feedback := some "excellent" }]⟩ := by decide
  unfold validate_answers
  rw [h]
  norm_num [calculate_grade, qEssay, respEssay100, rowEssay100]

/-- C6 amended: per graded question, `correct_count` is incremented exactly
when the question is mcq or true_false and the normalized answers match;
essay and coding questions enter the gradeable denominator but never
increment `correct_count`, whatever score their delegated evaluation
returned — even exactly 100. -/
theorem correct_count_binary_only
    (eLLM cLLM : Oracle) (ans : AnsMap) (q : Question) (q_id : String) (o : Outcome)
    (hid : q.id = some q_id)
    (h : gradeQuestion eLLM cLLM ans q = .ok o) :
    o.dc = (if (pyLower (q.qtype.getD "") = "mcq" ∨ pyLower (q.qtype.getD "") = "true_false")
              ∧ pyNormalize ((ans q_id).getD "") = pyNormalize (q.correct_answer.getD "")
            then 1 else 0) ∧
    ((pyLower (q.qtype.getD "") = "essay" ∨ pyLower (q.qtype.getD "") = "coding") →
      o.dc = 0 ∧ o.dg = 1) := by
  obtain ⟨q_id2, question_text, hid2, hqt, rfl⟩ := gradeQuestion_ok_elim eLLM cLLM ans q o h
  rw [hid] at hid2
  obtain rfl : q_id = q_id2 := Option.some.inj hid2
  constructor
  · exact gradeOutcome_dc_eq eLLM cLLM question_text ((ans q_id).getD "") q
  · rintro (hty | hty) <;> constructor
    · rw [gradeOutcome_dc_eq, hty, if_neg (by rintro ⟨hh | hh, -⟩ <;> exact absurd hh (by decide))]
    · rw [gradeOutcome_dg_eq, hty, if_pos (by decide)]
    · rw [gradeOutcome_dc_eq, hty, if_neg (by rintro ⟨hh | hh, -⟩ <;> exact absurd hh (by decide))]
    · rw [gradeOutcome_dg_eq, hty, if_pos (by decide)]

/-- Witness for C6 amended, at the essay-scored-100 fixture. -/
theorem correct_count_binary_only_witness :
    ((⟨0, 1, ⟨100, some "excellent"⟩⟩ : Outcome).dc =
      (if (pyLower (qEssay.qtype.getD "") = "mcq" ∨ pyLower (qEssay.qtype.getD "") = "true_false")
          ∧ pyNormalize ((ansEssay "1").getD "") = pyNormalize (qEssay.correct_answer.getD "")
        then 1 else 0)) ∧
    ((pyLower (qEssay.qtype.getD "") = "essay" ∨ pyLower (qEssay.qtype.getD "") = "coding") →
      (⟨0, 1, ⟨100, some "excellent"⟩⟩ : Outcome).dc = 0 ∧
      (⟨0, 1, ⟨100, some "excellent"⟩⟩ : Outcome).dg = 1) :=
  correct_count_binary_only oracle100 oracleDown ansEssay qEssay "1"
    ⟨0, 1, ⟨100, some "excellent"⟩⟩ rfl (by decide)

/-! ## Claim C7 -/

/-- C7: for every score in `[0, 100]`, the letter grade is `A` iff the
score is at least 90, `B` iff in `[80, 90)`, `C` iff in `[70, 80)`, `D`
iff in `[60, 70)` and `F` iff below 60; and the stored status is `Passed`
iff the score is at least the pass threshold 60, else `Failed`. -/
theorem calculate_grade_status_spec (s : Rat) (h0 : 0 ≤ s) (h1 : s ≤ 100) :
    (calculate_grade s = "A" ↔ 90 ≤ s) ∧
    (calculate_grade s = "B" ↔ 80 ≤ s ∧ s < 90) ∧
    (calculate_grade s = "C" ↔ 70 ≤ s ∧ s < 80) ∧
    (calculate_grade s = "D" ↔ 60 ≤ s ∧ s < 70) ∧
    (calculate_grade s = "F" ↔ s < 60) ∧
    (save_exam_status s = "Passed" ↔ 60 ≤ s) ∧
    (save_exam_status s = "Failed" ↔ s < 60) := by
  unfold calculate_grade save_exam_status
  split_ifs with hA hB hC hD <;>
    refine ⟨?_, ?_, ?_, ?_, ?_, ?_, ?_⟩ <;>
    simp_all <;> intros <;> linarith

/-! ## Claim C8 -/

/-- C8: for every successfully graded submission, the computed counts
satisfy `0 ≤ correct_answers ≤ gradeable_questions ≤ total_questions`,
both for the response (whose `correct_answers` and `total_questions`
fields carry `correct_count` and the gradeable count) and for the stored
result row (whose `total_questions` column is the number of submitted
questions). -/
theorem result_count_chain
    (eLLM cLLM : Oracle) (u subj : String) (qs : List Question) (ans : AnsMap)
    (db : List ResultRow) (resp : VAResponse) (rows : List ResultRow)
    (h : validate_answers eLLM cLLM u subj qs ans db = (.ok resp, rows)) :
    resp.correct_answers ≤ resp.total_questions ∧
    resp.total_questions ≤ qs.length ∧
    ∃ row : ResultRow, rows = db ++ [row] ∧
      row.correct_answers = (resp.correct_answers : Int) ∧
      row.total_questions = qs.length ∧
      0 ≤ row.correct_answers ∧
      row.correct_answers ≤ (row.total_questions : Int) := by
  obtain ⟨os, hos, hc, hg, -, -, -, -, hrows⟩ :=
    validate_answers_ok_elim eLLM cLLM u subj qs ans db resp rows h
  obtain ⟨hb1, hb2⟩ := outcomes_sum_bounds eLLM cLLM ans qs os hos
  have h1 : resp.correct_answers ≤ resp.total_questions := by rw [hc, hg]; exact hb1
  have h2 : resp.total_questions ≤ qs.length := by rw [hg]; exact hb2
  refine ⟨h1, h2, _, hrows, rfl, rfl, Int.natCast_nonneg _, ?_⟩
  show (resp.correct_answers : Int) ≤ (qs.length : Int)
  exact_mod_cast le_trans h1 h2

/-- Witness for C8, at the one-of-three-mcq fixture. -/
theorem result_count_chain_witness :
    respOneOfThree.correct_answers ≤ respOneOfThree.total_questions ∧
    respOneOfThree.total_questions ≤ qsMCQ3.length ∧
    ∃ row : ResultRow, [rowOneOfThree] = [] ++ [row] ∧
      row.correct_answers = (respOneOfThree.correct_answers : Int) ∧
      row.total_questions = qsMCQ3.length ∧
      0 ≤ row.correct_answers ∧
      row.correct_answers ≤ (row.total_questions : Int) :=
  result_count_chain oracleDown oracleDown "u" "General" qsMCQ3 ansOneOfThree []
    respOneOfThree [rowOneOfThree]
    (by
      have h : runGrading oracleDown oracleDown ansOneOfThree qsMCQ3 ⟨0, 0, []⟩ =
          .ok ⟨1, 3, [{ score := 100, feedback := none },
                      { score := 0, feedback := none },
                      { score := 0, feedback := none }]⟩ := by decide
      unfold validate_answers
      rw [h]
      norm_num [calculate_grade, qsMCQ3, respOneOfThree, rowOneOfThree])

/-! ## Claim C10 -/

/-- Grading one question reads the submission only at that question's id. -/
theorem gradeQuestion_ans_congr (eLLM cLLM : Oracle) (ans1 ans2 : AnsMap) (q : Question)
    (h : ∀ i, q.id = some i → ans1 i = ans2 i) :
    gradeQuestion eLLM cLLM ans1 q = gradeQuestion eLLM cLLM ans2 q := by
  unfold gradeQuestion
  rcases hid : q.id with _ | q_id
  · rfl
  rcases hqt : q.question_text with _ | question_text
  · rfl
  simp only [h q_id hid]

/-- The grading loop reads the submission only at the ids of the submitted
questions. -/
theorem runGrading_ans_congr (eLLM cLLM : Oracle) (ans1 ans2 : AnsMap)
    (qs : List Question)
    (h : ∀ q ∈ qs, ∀ i, q.id = some i → ans1 i = ans2 i) :
    ∀ acc, runGrading eLLM cLLM ans1 qs acc = runGrading eLLM cLLM ans2 qs acc := by
  induction qs with
  | nil => intro acc; rfl
  | cons q qs ih =>
    intro acc
    unfold runGrading
    rw [gradeQuestion_ans_congr eLLM cLLM ans1 ans2 q (h q (by simp))]
    cases gradeQuestion eLLM cLLM ans2 q with
    | error e => rfl
    | ok o => exact ih (fun q' hq' => h q' (List.mem_cons_of_mem _ hq')) _

/-- `submit_exam`'s correct count likewise reads the submission only at the
ids of the submitted questions. -/
theorem rawCorrectCount_ans_congr (ans1 ans2 : AnsMap) (qs : List Question)
    (h : ∀ q ∈ qs, ∀ i, q.id = some i → ans1 i = ans2 i) :
    rawCorrectCount ans1 qs = rawCorrectCount ans2 qs := by
  induction qs with
  | nil => rfl
  | cons q qs ih =>
    unfold rawCorrectCount
    rcases hid : q.id with _ | q_id
    · rfl
    rcases hca : q.correct_answer with _ | ca
    · rfl
    rw [ih (fun q' hq' => h q' (List.mem_cons_of_mem _ hq'))]
    simp only [h q (by simp) q_id hid]

/-- C10: an entry of the answers mapping whose key is not the id of any
submitted question has no effect: `validate_answers` (response and stored
rows) and `submit_exam` produce exactly the same result with the entry
present as with it absent. -/
theorem unknown_answer_id_ignored
    (eLLM cLLM : Oracle) (u subj : String) (qs : List Question) (ans : AnsMap)
    (db : List ResultRow) (k v : String)
    (hk : ∀ q ∈ qs, q.id ≠ some k) :
    validate_answers eLLM cLLM u subj qs (insertAns ans k v) db =
      validate_answers eLLM cLLM u subj qs ans db ∧
    submit_exam qs (insertAns ans k v) = submit_exam qs ans := by
  have hcong : ∀ q ∈ qs, ∀ i, q.id = some i → insertAns ans k v i = ans i := by
    intro q hq i hi
    have hik : i ≠ k := by
      rintro rfl
      exact hk q hq hi
    simp [insertAns, hik]
  constructor
  · unfold validate_answers
    rw [runGrading_ans_congr eLLM cLLM (insertAns ans k v) ans qs hcong]
  · unfold submit_exam submit_exam_try
    rw [rawCorrectCount_ans_congr (insertAns ans k v) ans qs hcong]

/-- Witness for C10: adding the unknown entry `"99" ↦ "x"` to the
one-of-three-mcq submission changes nothing. -/
theorem unknown_answer_id_ignored_witness :
    (validate_answers oracleDown oracleDown "u" "General" qsMCQ3
        (insertAns ansOneOfThree "99" "x") [] =
      validate_answers oracleDown oracleDown "u" "General" qsMCQ3 ansOneOfThree []) ∧
    submit_exam qsMCQ3 (insertAns ansOneOfThree "99" "x") =
      submit_exam qsMCQ3 ansOneOfThree :=
  unknown_answer_id_ignored oracleDown oracleDown "u" "General" qsMCQ3 ansOneOfThree
    [] "99" "x" (by decide)

/-! ## Claim C9 -/

/-- Comparing one grading step under the oracles `E`, `C` and under the
oracles with the evaluation triple `(t1, t2, t3)` made to fail: the step
still succeeds, the counter increments agree, and the detailed entry
either agrees or — on a triggered essay or coding question — becomes the
score-0 entry with the explanatory feedback string. -/
theorem gradeOutcome_failAt (E C : Oracle) (t1 t2 t3 question_text user_answer : String)
    (q : Question) :
    ((gradeOutcome (failAt E t1 t2 t3) (failAt C t1 t2 t3)
        question_text user_answer q).dc =
      (gradeOutcome E C question_text user_answer q).dc) ∧
    ((gradeOutcome (failAt E t1 t2 t3) (failAt C t1 t2 t3)
        question_text user_answer q).dg =
      (gradeOutcome E C question_text user_answer q).dg) ∧
    ((gradeOutcome (failAt E t1 t2 t3) (failAt C t1 t2 t3)
        question_text user_answer q).detail =
        (gradeOutcome E C question_text user_answer q).detail ∨
      ((pyLower (q.qtype.getD "") = "essay" ∨ pyLower (q.qtype.getD "") = "coding") ∧
        question_text = t1 ∧ q.correct_answer.getD "" = t2 ∧ user_answer = t3 ∧
        (gradeOutcome (failAt E t1 t2 t3) (failAt C t1 t2 t3)
            question_text user_answer q).detail =
          failDetail)) := by
  by_cases hb : pyLower (q.qtype.getD "") = "mcq" ∨ pyLower (q.qtype.getD "") = "true_false"
  · refine ⟨?_, ?_, Or.inl ?_⟩ <;> simp [gradeOutcome, if_pos hb]
  · by_cases he : pyLower (q.qtype.getD "") = "essay"
    · refine ⟨?_, ?_, ?_⟩
      · simp [gradeOutcome, if_neg hb, if_pos he]
      · simp [gradeOutcome, if_neg hb, if_pos he]
      · by_cases ht : question_text = t1 ∧ q.correct_answer.getD "" = t2 ∧ user_answer = t3
        · right
          refine ⟨Or.inl he, ht.1, ht.2.1, ht.2.2, ?_⟩
          simp [gradeOutcome, if_neg hb, if_pos he, evaluate_essay, failAt, if_pos ht,
            failDetail]
        · left
          simp [gradeOutcome, if_neg hb, if_pos he, evaluate_essay, failAt, if_neg ht]
    · by_cases hco : pyLower (q.qtype.getD "") = "coding"
      · refine ⟨?_, ?_, ?_⟩
        · simp [gradeOutcome, if_neg hb, if_neg he, if_pos hco]
        · simp [gradeOutcome, if_neg hb, if_neg he, if_pos hco]
        · by_cases ht : question_text = t1 ∧ q.correct_answer.getD "" = t2 ∧
              user_answer = t3
          · right
            refine ⟨Or.inr hco, ht.1, ht.2.1, ht.2.2, ?_⟩
            simp [gradeOutcome, if_neg hb, if_neg he, if_pos hco, evaluate_code, failAt,
              if_pos ht, failDetail]
          · left
            simp [gradeOutcome, if_neg hb, if_neg he, if_pos hco, evaluate_code, failAt,
              if_neg ht]
      · refine ⟨?_, ?_, Or.inl ?_⟩ <;>
          simp [gradeOutcome, if_neg hb, if_neg he, if_neg hco]

theorem gradeQuestion_failAt (E C : Oracle) (ans : AnsMap) (t1 t2 t3 : String)
    (q : Question) (o : Outcome)
    (h : gradeQuestion E C ans q = .ok o) :
    ∃ o2 : Outcome,
      gradeQuestion (failAt E t1 t2 t3) (failAt C t1 t2 t3) ans q = .ok o2 ∧
      o2.dc = o.dc ∧ o2.dg = o.dg ∧
      (o2.detail = o.detail ∨
        (triggeredOpenEnded ans t1 t2 t3 q ∧ o2.detail = failDetail)) := by
  obtain ⟨q_id, question_text, hid, hqt, rfl⟩ := gradeQuestion_ok_elim E C ans q o h
  obtain ⟨hdc, hdg, hdet⟩ :=
    gradeOutcome_failAt E C t1 t2 t3 question_text ((ans q_id).getD "") q
  refine ⟨gradeOutcome (failAt E t1 t2 t3) (failAt C t1 t2 t3)
      question_text ((ans q_id).getD "") q,
    by simp [gradeQuestion, hid, hqt], hdc, hdg, ?_⟩
  rcases hdet with hsame | ⟨hty, h1, h2, h3, hfd⟩
  · exact Or.inl hsame
  · exact Or.inr ⟨⟨hty, by rw [hqt, h1], h2, q_id, hid, h3⟩, hfd⟩

/-- Lifting `gradeQuestion_failAt` to the whole question list. -/
theorem outcomes_failAt (E C : Oracle) (ans : AnsMap) (t1 t2 t3 : String)
    (qs : List Question) (os : List Outcome)
    (h : List.Forall₂ (fun q o => gradeQuestion E C ans q = .ok o) qs os) :
    ∃ os2 : List Outcome,
      List.Forall₂
        (fun q o => gradeQuestion (failAt E t1 t2 t3) (failAt C t1 t2 t3) ans q = .ok o)
        qs os2 ∧
      os2.map Outcome.dc = os.map Outcome.dc ∧
      os2.map Outcome.dg = os.map Outcome.dg ∧
      List.Forall₂ (fun q (p : Detail × Detail) =>
          p.2 = p.1 ∨ (triggeredOpenEnded ans t1 t2 t3 q ∧ p.2 = failDetail))
        qs ((os.map Outcome.detail).zip (os2.map Outcome.detail)) := by
  induction h with
  | nil => exact ⟨[], .nil, rfl, rfl, .nil⟩
  | @cons q o qs os hqo hqs ih =>
    obtain ⟨os2, h2, hdc, hdg, hdet⟩ := ih
    obtain ⟨o2, ho2, hodc, hodg, hodet⟩ := gradeQuestion_failAt E C ans t1 t2 t3 q o hqo
    refine ⟨o2 :: os2, .cons ho2 h2, ?_, ?_, List.Forall₂.cons ?_ hdet⟩
    · simp [hodc, hdc]
    · simp [hodg, hdg]
    · rcases hodet with hsame | ⟨ht, hd⟩
      · exact Or.inl hsame
      · exact Or.inr ⟨ht, hd⟩

/-- The per-question outcome list of a successful run is unique. -/
theorem forall₂_graded_unique (f : Question → Except PyErr Outcome) :
    ∀ (qs : List Question) (os1 os2 : List Outcome),
      List.Forall₂ (fun q o => f q = .ok o) qs os1 →
      List.Forall₂ (fun q o => f q = .ok o) qs os2 → os1 = os2 := by
  intro qs
  induction qs with
  | nil =>
    intro os1 os2 h1 h2
    rcases h1
    rcases h2
    rfl
  | cons q qs ih =>
    intro os1 os2 h1 h2
    rcases h1 with _ | ⟨ho1, hos1⟩
    rcases h2 with _ | ⟨ho2, hos2⟩
    rename_i o1 os1' o2 os2'
    rw [ho1] at ho2
    rw [Except.ok.inj ho2, ih os1' os2' hos1 hos2]

/-- C9: if the delegated evaluator of an essay or coding question fails
(modelled by making both the essay oracle `E` and the coding oracle `C`
unavailable for exactly that question's evaluation inputs), the submission
still completes successfully, the overall score, grade, correct count,
gradeable count and stored rows are unchanged, and per question the
detailed entry is unchanged except that the triggered essay or coding
question is degraded to score 0 with the explanatory feedback string
attached. -/
theorem evaluator_failure_degrades_single_question
    (E C : Oracle) (u subj : String) (qs : List Question) (ans : AnsMap)
    (db : List ResultRow) (t1 t2 t3 : String) (r1 : VAResponse)
    (rows1 : List ResultRow)
    (h : validate_answers E C u subj qs ans db = (.ok r1, rows1)) :
    ∃ r2 : VAResponse,
      validate_answers (failAt E t1 t2 t3) (failAt C t1 t2 t3) u subj qs ans db =
        (.ok r2, rows1) ∧
      r2.score = r1.score ∧ r2.grade = r1.grade ∧
      r2.correct_answers = r1.correct_answers ∧
      r2.total_questions = r1.total_questions ∧
      List.Forall₂ (fun q (p : Detail × Detail) =>
          p.2 = p.1 ∨ (triggeredOpenEnded ans t1 t2 t3 q ∧ p.2 = failDetail))
        qs (r1.detailed_results.zip r2.detailed_results) := by
  obtain ⟨os, hos, hc, hg, hdet1, hscore, hgrade, hexam, hrows⟩ :=
    validate_answers_ok_elim E C u subj qs ans db r1 rows1 h
  obtain ⟨os2, h2, hdc, hdg, hdet⟩ := outcomes_failAt E C ans t1 t2 t3 qs os hos
  have hr2 : runGrading (failAt E t1 t2 t3) (failAt C t1 t2 t3) ans qs ⟨0, 0, []⟩ =
      .ok (os2.foldl applyOutcome ⟨0, 0, []⟩) :=
    (runGrading_ok_iff (failAt E t1 t2 t3) (failAt C t1 t2 t3) ans qs ⟨0, 0, []⟩ _).mpr
      ⟨os2, h2, rfl⟩
  rcases hva : validate_answers (failAt E t1 t2 t3) (failAt C t1 t2 t3) u subj qs ans db
    with ⟨res2, rows2⟩
  cases res2 with
  | error pe =>
    obtain ⟨he, -⟩ :=
      validate_answers_error_elim (failAt E t1 t2 t3) (failAt C t1 t2 t3)
        u subj qs ans db pe rows2 hva
    rw [hr2] at he
    simp at he
  | ok r2 =>
    obtain ⟨os2', hos2', hc2, hg2, hdet2, hscore2, hgrade2, -, hrows2⟩ :=
      validate_answers_ok_elim (failAt E t1 t2 t3) (failAt C t1 t2 t3)
        u subj qs ans db r2 rows2 hva
    obtain rfl : os2' = os2 :=
      forall₂_graded_unique
        (gradeQuestion (failAt E t1 t2 t3) (failAt C t1 t2 t3) ans)
        qs os2' os2 hos2' h2
    have hcc : r2.correct_answers = r1.correct_answers := by rw [hc2, hdc, ← hc]
    have hgg : r2.total_questions = r1.total_questions := by rw [hg2, hdg, ← hg]
    have hss : r2.score = r1.score := by rw [hscore2, hcc, hgg, ← hscore]
    have hgr : r2.grade = r1.grade := by rw [hgrade2, hss, ← hgrade]
    have hrr : rows2 = rows1 := by rw [hrows2, hss, hgr, hcc, ← hrows]
    refine ⟨r2, by rw [hrr], hss, hgr, hcc, hgg, ?_⟩
    rw [hdet1, hdet2]
    exact hdet

/-- Witness for C9: an essay-plus-coding submission graded once with
evaluators that succeed with score 90 on both questions, and once with the
evaluators down for exactly the coding question's evaluation inputs. -/
theorem evaluator_failure_degrades_single_question_witness :
    ∃ r2 : VAResponse,
      validate_answers
        (failAt oracle90 "Write a fibonacci function."
          "def fibonacci(n): return n" "my code")
        (failAt oracle90 "Write a fibonacci function."
          "def fibonacci(n): return n" "my code")
        "u" "General" [qEssay, qCoding] ansOpen [] = (.ok r2, [rowOpen90]) ∧
      r2.score = respOpen90.score ∧ r2.grade = respOpen90.grade ∧
      r2.correct_answers = respOpen90.correct_answers ∧
      r2.total_questions = respOpen90.total_questions ∧
      List.Forall₂ (fun q (p : Detail × Detail) =>
          p.2 = p.1 ∨ (triggeredOpenEnded ansOpen "Write a fibonacci function."
            "def fibonacci(n): return n" "my code" q ∧ p.2 = failDetail))
        [qEssay, qCoding] (respOpen90.detailed_results.zip r2.detailed_results) :=
  evaluator_failure_degrades_single_question oracle90 oracle90 "u" "General"
    [qEssay, qCoding] ansOpen [] "Write a fibonacci function."
    "def fibonacci(n): return n" "my code" respOpen90 [rowOpen90]
    (by
      have h : runGrading oracle90 oracle90 ansOpen [qEssay, qCoding] ⟨0, 0, []⟩ =
          .ok ⟨0, 2, [{ score := 90, feedback := some "good" },
                      { score := 90, feedback := some "good" }]⟩ := by decide
      unfold validate_answers
      rw [h]
      norm_num [calculate_grade, respOpen90, rowOpen90])

/-- Witness for C7 at score 75. -/
theorem calculate_grade_status_spec_witness :
    0 ≤ (75 : Rat) ∧ (75 : Rat) ≤ 100 ∧
    (calculate_grade 75 = "C" ↔ 70 ≤ (75 : Rat) ∧ (75 : Rat) < 80) ∧
    (save_exam_status 75 = "Passed" ↔ 60 ≤ (75 : Rat)) :=
  ⟨by norm_num, by norm_num,
   (calculate_grade_status_spec 75 (by norm_num) (by norm_num)).2.2.1,
   (calculate_grade_status_spec 75 (by norm_num) (by norm_num)).2.2.2.2.2.1⟩

end ExamApp
